import Mathlib

/-!
Verification of the CyberShield real-time abuse detection and escalation engine.

This file gives a shallow embedding, in Lean, of the core of the repository:

* `AbuseDetector.analyze_text` and `AbuseDetector._classify_abuse_type`
  (backend/app/services/abuse_detector.py) — embedded as `analyzeText` and
  `classifyAbuseType` below;
* `ConnectionManager.handle_abusive_message`, `ConnectionManager.store_message`,
  `ConnectionManager.send_personal_message` and the websocket dispatch loop of
  backend/app/main.py — embedded as `handleAbusiveMessage` and `processInbound`;
* the screenshot/ZIP control flow of `ConnectionManager.generate_evidence_report`
  — embedded as `generateEvidenceReport`.

Modelling conventions:
* Text is `List Char`; Python's `str.lower`/`str.strip`/`c.isupper` are modelled
  at ASCII granularity (`Char.toLower`, `Char.isUpper`, the ASCII whitespace
  set), which is exact for the ASCII keyword/phrase/pattern vocabulary the
  detector uses.
* Scores are in tenths: the Python float `4.5` is the natural number `45`.
  Every score the detector computes is a multiple of 0.5, so this is exact.
* The five regular expressions of `abusive_patterns` are embedded by a small
  token matcher (`matchToks`/`scanTokens`): each regex is a `\b`-delimited
  alternation-free sequence of literal words, `\s+` gaps and `\w+` wildcards,
  for which greedy maximal-munch matching coincides with Python `re` semantics
  because adjacent token character classes are disjoint.
* Effectful operations (database writes, websocket sends, archive generation)
  are represented by an emitted `Event` list; fallible collaborators (the
  store, the evidence packager, the renderer) are driven by explicit outcome
  parameters, and a Python exception propagating out of a handler is the
  boolean `raised` component of its result.
-/

/-! ## Character classes and text normalisation -/

/-- ASCII whitespace, the character class of Python's `str.strip` and of `\s`
in the detector's regular expressions (restricted to ASCII). -/
def isSpaceChar (c : Char) : Bool :=
  c == ' ' || c == '\t' || c == '\n' || c == '\r' || c == '\x0b' || c == '\x0c'

/-- The `\w` character class (ASCII): letters, digits, underscore. -/
def isWordChar (c : Char) : Bool :=
  c.isAlpha || c.isDigit || c == '_'

/-- Python `str.strip`: drop whitespace from both ends. -/
def trimList (t : List Char) : List Char :=
  ((t.dropWhile isSpaceChar).reverse.dropWhile isSpaceChar).reverse

/-- `text.lower().strip()` from `analyze_text` line 62. -/
def normText (t : List Char) : List Char :=
  trimList (t.map Char.toLower)

/-- `startsWithB n h` : the list `h` starts with `n`. -/
def startsWithB : List Char → List Char → Bool
  | [], _ => true
  | _ :: _, [] => false
  | a :: as, b :: bs => a == b && startsWithB as bs

/-- `containsSeq n h` : `n` occurs as a contiguous substring of `h`
(Python's `n in h` on strings). -/
def containsSeq (n : List Char) : List Char → Bool
  | [] => startsWithB n []
  | c :: t => startsWithB n (c :: t) || containsSeq n t

/-! ## Regular-expression patterns (abuse_detector.py lines 44-50) -/

/-- One token of an embedded regular expression: a literal word, a `\s+` gap,
or a `\w+` wildcard. -/
inductive PatTok where
  | lit (s : List Char)
  | ws
  | wd
deriving DecidableEq

/-- Match a token sequence greedily at the head of the input, returning the
consumed characters and the rest.  Greedy maximal munch agrees with Python
`re` backtracking here because `\s` and `\w`/literal-word characters are
disjoint classes in every pattern of `abusive_patterns`. -/
def matchToks : List PatTok → List Char → Option (List Char × List Char)
  | [], rest => some ([], rest)
  | .lit s :: ts, h =>
    if startsWithB s h then
      match matchToks ts (h.drop s.length) with
      | some (c, r) => some (s ++ c, r)
      | none => none
    else none
  | .ws :: ts, h =>
    let sp := h.takeWhile isSpaceChar
    if sp.isEmpty then none
    else
      match matchToks ts (h.dropWhile isSpaceChar) with
      | some (c, r) => some (sp ++ c, r)
      | none => none
  | .wd :: ts, h =>
    let w := h.takeWhile isWordChar
    if w.isEmpty then none
    else
      match matchToks ts (h.dropWhile isWordChar) with
      | some (c, r) => some (w ++ c, r)
      | none => none

/-- The leading `\b`: the previous character (if any) is a non-word character.
All five patterns begin with a word character, so this is the whole check. -/
def boundaryBefore : Option Char → Bool
  | none => true
  | some c => !isWordChar c

/-- The trailing `\b`: the next character (if any) is a non-word character.
All five patterns end in a word character, so this is the whole check. -/
def boundaryAfter : List Char → Bool
  | [] => true
  | c :: _ => !isWordChar c

/-- `re.findall` for one embedded pattern: scan left to right, record each
leftmost non-overlapping match, resume after it.  `fuel` bounds recursion and
is initialised above the input length, so it never runs out. -/
def scanTokens (p : List PatTok) : Nat → Option Char → List Char → List (List Char)
  | 0, _, _ => []
  | _ + 1, _, [] => []
  | fuel + 1, prev, c :: t =>
    if boundaryBefore prev then
      match matchToks p (c :: t) with
      | some (consumed, rest) =>
        if boundaryAfter rest then
          consumed :: scanTokens p fuel (some (consumed.getLastD c)) rest
        else
          scanTokens p fuel (some c) t
      | none => scanTokens p fuel (some c) t
    else scanTokens p fuel (some c) t

/-- `re.findall(pattern, text_lower)` for one embedded pattern. -/
def findAll (p : List PatTok) (t : List Char) : List (List Char) :=
  scanTokens p (t.length + 1) none t

/-- `r'\b(you\s+are\s+so\s+\w+)\b'` -/
def pat1 : List PatTok :=
  [.lit "you".toList, .ws, .lit "are".toList, .ws, .lit "so".toList, .ws, .wd]

/-- `r'\b(i\s+hate\s+you)\b'` -/
def pat2 : List PatTok :=
  [.lit "i".toList, .ws, .lit "hate".toList, .ws, .lit "you".toList]

/-- `r'\b(go\s+\w+\s+yourself)\b'` -/
def pat3 : List PatTok :=
  [.lit "go".toList, .ws, .wd, .ws, .lit "yourself".toList]

/-- `r'\b(nobody\s+\w+\s+you)\b'` -/
def pat4 : List PatTok :=
  [.lit "nobody".toList, .ws, .wd, .ws, .lit "you".toList]

/-- `r'\b(you\s+should\s+\w+)\b'` -/
def pat5 : List PatTok :=
  [.lit "you".toList, .ws, .lit "should".toList, .ws, .wd]

/-- `self.abusive_patterns` (abuse_detector.py lines 44-50). -/
def abusivePatterns : List (List PatTok) := [pat1, pat2, pat3, pat4, pat5]

/-! ## Keyword and phrase tables (abuse_detector.py lines 9-41, 74-79) -/

/-- `self.abusive_keywords`, severity weights in tenths, in dict insertion
order (abuse_detector.py lines 9-41). -/
def abusiveKeywords : List (List Char × Nat) :=
  [("hate".toList, 90), ("kill".toList, 100), ("die".toList, 90),
   ("death".toList, 85), ("murder".toList, 100), ("suicide".toList, 95),
   ("bitch".toList, 70), ("fuck".toList, 65), ("shit".toList, 60),
   ("damn".toList, 55), ("hell".toList, 50), ("bastard".toList, 75),
   ("asshole".toList, 70), ("stupid".toList, 45), ("idiot".toList, 50),
   ("loser".toList, 40), ("ugly".toList, 35), ("fat".toList, 30),
   ("worthless".toList, 60), ("nobody likes you".toList, 80),
   ("everyone hates you".toList, 85), ("you should".toList, 70),
   ("go away".toList, 40), ("shut up".toList, 50)]

/-- `phrases_to_check` (abuse_detector.py lines 74-79); each match scores a
flat 7.0 (= 70 tenths). -/
def phrasesToCheck : List (List Char) :=
  ["send me your nude".toList, "show me your body".toList,
   "give me your money".toList, "pay me $".toList,
   "expose your secrets".toList, "share your photos".toList,
   "unless you".toList, "or else".toList, "kill yourself".toList,
   "hurt yourself".toList, "nobody cares".toList, "i will kill you".toList,
   "i will hurt you".toList, "i will find you".toList,
   "send pics baby".toList]

/-! ## Category classification (abuse_detector.py lines 122-160) -/

/-- The six abuse categories of `_classify_abuse_type`. -/
inductive Category where
  | THREAT
  | MENTAL_HARASSMENT
  | BLACKMAIL
  | EXPLOITATION
  | SEXUAL_HARASSMENT
  | CYBERBULLYING
deriving DecidableEq

/-- `cyberbullying_words` (line 126). -/
def cyberbullyingWords : List (List Char) :=
  ["loser".toList, "stupid".toList, "idiot".toList, "worthless".toList,
   "nobody likes you".toList, "everyone hates you".toList, "ugly".toList,
   "fat".toList]

/-- `sexual_harassment_words` (line 129). -/
def sexualHarassmentWords : List (List Char) :=
  ["sexy".toList, "hot".toList, "nude".toList, "naked".toList,
   "send pics".toList, "show me".toList, "sexual".toList, "body".toList,
   "breast".toList, "private".toList, "pics baby".toList,
   "send me your".toList]

/-- `exploitation_words` (line 132). -/
def exploitationWords : List (List Char) :=
  ["money".toList, "pay me".toList, "give me".toList, "steal".toList,
   "scam".toList, "fraud".toList, "trick".toList, "use you".toList,
   "give me your money".toList, "pay me $".toList]

/-- `blackmail_words` (line 135). -/
def blackmailWords : List (List Char) :=
  ["expose".toList, "tell everyone".toList, "share photos".toList,
   "blackmail".toList, "secret".toList, "unless you".toList,
   "or else".toList, "expose your secrets".toList,
   "share your photos".toList]

/-- `mental_harassment_words` (line 138). -/
def mentalHarassmentWords : List (List Char) :=
  ["kill yourself".toList, "suicide".toList, "die".toList,
   "worthless".toList, "nobody cares".toList, "alone".toList,
   "depressed".toList, "hurt yourself".toList]

/-- `threat_words` (line 141). -/
def threatWords : List (List Char) :=
  ["kill".toList, "hurt".toList, "beat".toList, "destroy".toList,
   "revenge".toList, "get you".toList, "find you".toList,
   "come for you".toList, "murder".toList, "violence".toList]

/-- `' '.join(keywords)` (line 144); the joined detected keywords are already
lower-case, so the source's redundant `.lower()` is the identity here. -/
def joinSp : List (List Char) → List Char
  | [] => []
  | [x] => x
  | x :: y :: ys => x ++ ' ' :: joinSp (y :: ys)

/-- `any(word in keywords_text for word in ws)`. -/
def anyIn (ws : List (List Char)) (txt : List Char) : Bool :=
  ws.any fun w => containsSeq w txt

/-- `AbuseDetector._classify_abuse_type` (abuse_detector.py lines 122-160):
an `elif` chain over the six category word lists, tested by substring against
the space-joined detected keywords; THREAT additionally inspects the matched
regex spans; the final `else` defaults to CYBERBULLYING. -/
def classifyAbuseType (keywords pats : List (List Char)) : Category :=
  let ktext := joinSp keywords
  if anyIn threatWords ktext
      || pats.any (fun p => containsSeq "kill".toList p || containsSeq "hurt".toList p) then
    .THREAT
  else if anyIn mentalHarassmentWords ktext then .MENTAL_HARASSMENT
  else if anyIn blackmailWords ktext then .BLACKMAIL
  else if anyIn exploitationWords ktext then .EXPLOITATION
  else if anyIn sexualHarassmentWords ktext then .SEXUAL_HARASSMENT
  else if anyIn cyberbullyingWords ktext then .CYBERBULLYING
  else .CYBERBULLYING

/-! ## analyze_text (abuse_detector.py lines 52-120) -/

/-- Keyword scan (lines 68-71): fold over `abusive_keywords`, taking the
maximum matched weight and collecting matched keywords in order. -/
def kwPhase (tl : List Char) : Nat × List (List Char) :=
  abusiveKeywords.foldl
    (fun acc kv => if containsSeq kv.1 tl then (Nat.max acc.1 kv.2, acc.2 ++ [kv.1]) else acc)
    (0, [])

/-- Phrase scan (lines 81-84): each matched phrase raises the running score
to at least 70 and is appended to the detected keywords. -/
def phrasePhase (tl : List Char) (acc : Nat × List (List Char)) : Nat × List (List Char) :=
  phrasesToCheck.foldl
    (fun acc p => if containsSeq p tl then (Nat.max acc.1 70, acc.2 ++ [p]) else acc)
    acc

/-- Pattern scan (lines 87-91): each pattern with a non-empty `findall`
result raises the running score to at least 70 and extends the detected
pattern spans. -/
def patternPhase (tl : List Char) (score : Nat) : Nat × List (List Char) :=
  abusivePatterns.foldl
    (fun acc p =>
      if (findAll p tl).isEmpty then acc
      else (Nat.max acc.1 70, acc.2 ++ findAll p tl))
    (score, [])

/-- Shouting heuristic (lines 96-98): uppercase ratio over the original text
exceeds 0.7 and the text is longer than 10 characters. -/
def capsCond (t : List Char) : Bool :=
  decide (7 * t.length < 10 * (t.filter Char.isUpper).length) && decide (10 < t.length)

/-- Aggressive-punctuation heuristic (lines 101-103): the `!`/`?` ratio over
the original text exceeds 0.2. -/
def punctCond (t : List Char) : Bool :=
  decide (t.length < 5 * (t.filter fun c => c == '!' || c == '?').length)

/-- The result record of `analyze_text`: the `(is_abusive, abuse_score,
analysis)` tuple, with the analysis fields the engine consumes.  For the
empty-text early return (line 60) the analysis carries no classification. -/
structure AnalysisResult where
  is_abusive : Bool
  abuse_score : Nat
  detected_keywords : List (List Char)
  detected_patterns : List (List Char)
  classification : Option Category
deriving DecidableEq

/-- `AbuseDetector.analyze_text` (abuse_detector.py lines 52-120).
Scores are in tenths: threshold 4.0 is `40`, cap 10.0 is `100`. -/
def analyzeText (t : List Char) : AnalysisResult :=
  if (trimList t).isEmpty then
    ⟨false, 0, [], [], none⟩
  else
    let tl := normText t
    let kp := phrasePhase tl (kwPhase tl)
    let pp := patternPhase tl kp.1
    let adj1 := if capsCond t then 10 else 0
    let adj2 := if punctCond t then 5 else 0
    let score := Nat.min (pp.1 + adj1 + adj2) 100
    ⟨decide (40 ≤ score), score, kp.2, pp.2, some (classifyAbuseType kp.2 pp.2)⟩

/-! ## Escalation tracker and dispatch (websocket_manager.py, main.py) -/

/-- One entry of a pair's incident log (`abuse_counters[pair_key]["messages"]`,
websocket_manager.py lines 74-79; the wall-clock timestamp is omitted). -/
structure IncidentEntry where
  msg_id : Nat
  content : List Char
  abuse_score : Nat
deriving DecidableEq

/-- Per-pair escalation state (`abuse_counters[pair_key]`): the incident
counter and the incident log (the `last_reset` wall-clock field is omitted). -/
structure PairState where
  count : Nat
  messages : List IncidentEntry
deriving DecidableEq

/-- `self.abuse_counters`: a finite map from ordered (sender, receiver) pairs
to pair state.  The source keys it by the string `f"{sender}_{receiver}"`,
which is injective on pairs of naturals, so the pair itself is the key. -/
abbrev Counters := List ((Nat × Nat) × PairState)

/-- Map lookup. -/
def lookupPair : Counters → (Nat × Nat) → Option PairState
  | [], _ => none
  | (k, v) :: rest, key => if k = key then some v else lookupPair rest key

/-- Map update/insert. -/
def setPair : Counters → (Nat × Nat) → PairState → Counters
  | [], key, v => [(key, v)]
  | (k, v0) :: rest, key, v =>
    if k = key then (key, v) :: rest else (k, v0) :: setPair rest key v

/-- The abusive-message fields of `message_data` as consumed by
`handle_abusive_message` (after `store_message` assigned `id`). -/
structure MsgData where
  sender_id : Nat
  receiver_id : Nat
  content : List Char
  msg_id : Nat
  abuse_score : Nat
deriving DecidableEq

/-- Externally observable effects of the engine, in program order:
database writes, websocket sends, and evidence-archive generation. -/
inductive Event where
  | evidenceArchive (sender_id receiver_id : Nat) (msgs : List IncidentEntry)
  | reportInsert (user_id reported_user_id message_id : Nat)
  | warningAlert (receiver_id : Nat)
  | blockInsert (user_id blocked_user_id : Nat)
  | blockAlert (receiver_id : Nat)
  | storeMessage (sender_id receiver_id : Nat) (content : List Char)
      (is_abusive : Bool) (abuse_score : Nat)
  | deliver (receiver_id sender_id : Nat) (content : List Char)
      (is_abusive : Bool) (abuse_score : Nat) (abuse_type : Option Category)
deriving DecidableEq

def Event.isEvidenceArchive : Event → Bool
  | .evidenceArchive .. => true
  | _ => false

def Event.isWarningAlert : Event → Bool
  | .warningAlert _ => true
  | _ => false

def Event.isBlockInsert : Event → Bool
  | .blockInsert .. => true
  | _ => false

def Event.isBlockAlert : Event → Bool
  | .blockAlert _ => true
  | _ => false

def Event.isDeliver : Event → Bool
  | .deliver .. => true
  | _ => false

/-- `ConnectionManager.handle_abusive_message` (websocket_manager.py lines
57-134).  `conns` is the key set of `active_connections`; `evidenceOk` is the
outcome of the `generate_evidence_report` call on line 85 (its body does file
and database I/O): `false` means it raises, and the exception propagates —
modelled by the final `Bool` of the result (`true` = a Python exception
escaped the handler).  The counter increment and log append (lines 73-79)
precede that call, so they survive an evidence failure. -/
def handleAbusiveMessage (conns : List Nat) (counters : Counters)
    (m : MsgData) (evidenceOk : Bool) : Counters × List Event × Bool :=
  let key := (m.sender_id, m.receiver_id)
  let st0 := (lookupPair counters key).getD ⟨0, []⟩
  let entry : IncidentEntry := ⟨m.msg_id, m.content, m.abuse_score⟩
  let st1 : PairState := ⟨st0.count + 1, st0.messages ++ [entry]⟩
  let counters1 := setPair counters key st1
  if !evidenceOk then
    (counters1, [], true)
  else
    let evs0 := [Event.evidenceArchive m.sender_id m.receiver_id [entry],
                 Event.reportInsert m.receiver_id m.sender_id m.msg_id]
    if st1.count = 1 then
      (counters1,
       evs0 ++ (if conns.contains m.receiver_id then [Event.warningAlert m.receiver_id] else []),
       false)
    else if 3 ≤ st1.count then
      (setPair counters1 key ⟨0, []⟩,
       evs0 ++ [Event.blockInsert m.receiver_id m.sender_id]
            ++ (if conns.contains m.receiver_id then [Event.blockAlert m.receiver_id] else []),
       false)
    else
      (counters1, evs0, false)

/-- The wire shape of an inbound envelope (main.py line 53). -/
structure InboundMsg where
  sender_id : Nat
  receiver_id : Nat
  content : List Char
deriving DecidableEq

/-- One iteration of the websocket dispatch loop (main.py lines 52-69):
classify, persist (`store_message`; `storeOk = false` means the database
write raises and the exception propagates), run `handle_abusive_message` on
abusive results, then `send_personal_message` to the receiver — which sends
only if the receiver has a live connection and is a no-op otherwise.
`msgId` is the id the store assigns to the persisted row. -/
def processInbound (conns : List Nat) (counters : Counters) (m : InboundMsg)
    (msgId : Nat) (storeOk evidenceOk : Bool) : Counters × List Event × Bool :=
  let r := analyzeText m.content
  let category := if r.is_abusive then r.classification else none
  if !storeOk then
    (counters, [], true)
  else
    let evs0 := [Event.storeMessage m.sender_id m.receiver_id m.content
                   r.is_abusive r.abuse_score]
    let dlv := if conns.contains m.receiver_id then
                 [Event.deliver m.receiver_id m.sender_id m.content
                    r.is_abusive r.abuse_score category]
               else []
    if r.is_abusive then
      let R := handleAbusiveMessage conns counters
                 ⟨m.sender_id, m.receiver_id, m.content, msgId, r.abuse_score⟩ evidenceOk
      if R.2.2 then (R.1, evs0 ++ R.2.1, true)
      else (R.1, evs0 ++ R.2.1 ++ dlv, false)
    else
      (counters, evs0 ++ dlv, false)

/-! ## Evidence packaging control flow (websocket_manager.py lines 136-303) -/

/-- Outcome of the `ScreenshotGenerator.generate_evidence_screenshot` call on
line 238: a returned path, a `None` return, or a raised exception. -/
inductive RendererResult where
  | image (path : List Char)
  | noImage
  | raisesError
deriving DecidableEq

/-- Outcome of `generate_evidence_report`: an archive path (with or without
the screenshot member), a propagated renderer exception, or the `NameError`
raised when the zip step reads the unbound local `temp_screenshot_path`. -/
inductive PackagingOutcome where
  | archive (hasImage : Bool)
  | rendererError
  | nameError
deriving DecidableEq

/-- `ConnectionManager.generate_evidence_report` (websocket_manager.py lines
136-303), restricted to its screenshot control flow.  The JSON report and
README are always written first; then line 238 invokes the renderer with no
surrounding try/except, so a renderer exception propagates.  The local
`temp_screenshot_path` is bound only inside the guard on lines 243-246
(`if screenshot_path and os.path.exists(screenshot_path)`); the zip step on
line 294 evaluates `os.path.exists(temp_screenshot_path)` unconditionally, so
when the guard did not run the name is unbound and Python raises `NameError`.
`pathExists` models `os.path.exists`. -/
def generateEvidenceReport (renderer : RendererResult)
    (pathExists : List Char → Bool) : PackagingOutcome :=
  match renderer with
  | .raisesError => .rendererError
  | .noImage => .nameError
  | .image p =>
    if pathExists p then .archive true
    else .nameError
/-! ## Derived definitions used by the claim statements -/

/-- The severity weights of the keywords of `abusive_keywords` that occur in
the normalised text. -/
def matchedKwWeights (tl : List Char) : List Nat :=
  (abusiveKeywords.filter fun kv => containsSeq kv.1 tl).map Prod.snd

/-- The phrases of `phrases_to_check` that occur in the normalised text. -/
def matchedPhrases (tl : List Char) : List (List Char) :=
  phrasesToCheck.filter fun p => containsSeq p tl

/-- Number of warning alerts in an event trace. -/
def countWarnings (evs : List Event) : Nat := (evs.filter Event.isWarningAlert).length

/-- Number of block-relationship writes in an event trace. -/
def countBlockInserts (evs : List Event) : Nat := (evs.filter Event.isBlockInsert).length

/-- Number of block notifications in an event trace. -/
def countBlockAlerts (evs : List Event) : Nat := (evs.filter Event.isBlockAlert).length

/-- Number of evidence archives generated in an event trace. -/
def countEvidence (evs : List Event) : Nat := (evs.filter Event.isEvidenceArchive).length

/-- Number of live-connection deliveries in an event trace. -/
def countDeliver (evs : List Event) : Nat := (evs.filter Event.isDeliver).length

/-- Replay a sequence of abusive-incident inputs (connection set, message,
evidence outcome) through `handle_abusive_message`, starting from the given
counters — every mutation of `self.abuse_counters` in the repository happens
inside `handle_abusive_message`, so these are exactly the reachable states. -/
def runHandlers (trace : List (List Nat × MsgData × Bool)) (init : Counters) : Counters :=
  trace.foldl (fun cs inp => (handleAbusiveMessage inp.1 cs inp.2.1 inp.2.2).1) init

/-- The invariant of claim C10: every tracked pair's incident counter equals
the length of its incident log. -/
def CounterInv (cs : Counters) : Prop :=
  ∀ k st, lookupPair cs k = some st → st.count = st.messages.length

/-! ## Helper lemmas about substring search and the scan folds -/

theorem startsWithB_append (n s : List Char) : startsWithB n (n ++ s) = true := by
  induction n with
  | nil => rfl
  | cons a as ih => simp [startsWithB, ih]

theorem containsSeq_of_startsWithB {n h : List Char} (hs : startsWithB n h = true) :
    containsSeq n h = true := by
  cases h with
  | nil => simpa [containsSeq] using hs
  | cons c t => simp [containsSeq, hs]

theorem containsSeq_append_right {n h : List Char} (p : List Char)
    (hc : containsSeq n h = true) : containsSeq n (p ++ h) = true := by
  induction p with
  | nil => simpa using hc
  | cons a as ih => simp [containsSeq, ih]

theorem containsSeq_self_append (n s : List Char) : containsSeq n (n ++ s) = true :=
  containsSeq_of_startsWithB (startsWithB_append n s)

/-- A member of a list of words occurs as a substring of its space-join. -/
theorem containsSeq_joinSp {x : List Char} {l : List (List Char)}
    (hm : x ∈ l) : containsSeq x (joinSp l) = true := by
  induction l with
  | nil => cases hm
  | cons y ys ih =>
    cases hm with
    | head =>
      cases ys with
      | nil => simpa [joinSp] using containsSeq_self_append x []
      | cons z zs => simpa [joinSp] using containsSeq_self_append x (' ' :: joinSp (z :: zs))
    | tail _ hmem =>
      cases ys with
      | nil => cases hmem
      | cons z zs =>
        have h1 := containsSeq_append_right (p := y ++ [' ']) (ih hmem)
        simpa [joinSp, List.append_assoc] using h1


/-- `l.foldr Nat.max 0`: the maximum of a list of naturals. -/
def listMax (l : List Nat) : Nat := l.foldr Nat.max 0

theorem listMax_append (l1 l2 : List Nat) :
    listMax (l1 ++ l2) = Nat.max (listMax l1) (listMax l2) := by
  induction l1 with
  | nil => simp [listMax]
  | cons a as ih =>
    simp only [listMax, List.cons_append, List.foldr_cons] at ih ⊢
    rw [ih]
    exact (Nat.max_assoc a _ _).symm

/-- The score component of a detect-fold (the shape shared by the keyword and
phrase scans of `analyze_text`) is the maximum of the start value and all
matched weights — a maximum, never a sum. -/
theorem foldl_detect_fst {α : Type} (f : α → Bool) (w : α → Nat) (g : α → List Char) :
    ∀ (l : List α) (a : Nat) (ks : List (List Char)),
      (l.foldl (fun acc kv =>
          if f kv then (Nat.max acc.1 (w kv), acc.2 ++ [g kv]) else acc) (a, ks)).1
        = Nat.max a (listMax ((l.filter f).map w)) := by
  intro l
  induction l with
  | nil => intro a ks; simp [listMax]
  | cons x xs ih =>
    intro a ks
    cases hf : f x
    · simp only [List.foldl_cons, hf, Bool.false_eq_true, if_false, List.filter_cons, ih]
    · simp only [List.foldl_cons, hf, if_true, List.filter_cons, List.map_cons, ih]
      simp only [listMax, List.foldr_cons]
      exact Nat.max_assoc a (w x) _

/-- The collected-matches component of a detect-fold preserves already
collected entries. -/
theorem foldl_detect_mem_mono {α : Type} (f : α → Bool) (w : α → Nat) (g : α → List Char) :
    ∀ (l : List α) (a : Nat) (ks : List (List Char)) (x : List Char),
      x ∈ ks →
      x ∈ (l.foldl (fun acc kv =>
          if f kv then (Nat.max acc.1 (w kv), acc.2 ++ [g kv]) else acc) (a, ks)).2 := by
  intro l
  induction l with
  | nil => intro a ks x hx; simpa using hx
  | cons y ys ih =>
    intro a ks x hx
    cases hy : f y
    · simp only [List.foldl_cons, hy, Bool.false_eq_true, if_false]
      exact ih _ _ x hx
    · simp only [List.foldl_cons, hy, if_true]
      exact ih _ _ x (by simp [hx])

/-- A matched element's collected form ends up in the detect-fold output. -/
theorem foldl_detect_mem {α : Type} (f : α → Bool) (w : α → Nat) (g : α → List Char) :
    ∀ (l : List α) (a : Nat) (ks : List (List Char)) (kv : α),
      kv ∈ l → f kv = true →
      g kv ∈ (l.foldl (fun acc kv =>
          if f kv then (Nat.max acc.1 (w kv), acc.2 ++ [g kv]) else acc) (a, ks)).2 := by
  intro l
  induction l with
  | nil => intro a ks kv hm; cases hm
  | cons y ys ih =>
    intro a ks kv hm hf
    cases hm with
    | head =>
      simp only [List.foldl_cons, hf, if_true]
      exact foldl_detect_mem_mono f w g ys _ _ _ (by simp)
    | tail _ hmem =>
      cases hy : f y
      · simp only [List.foldl_cons, hy, Bool.false_eq_true, if_false]
        exact ih _ _ kv hmem hf
      · simp only [List.foldl_cons, hy, if_true]
        exact ih _ _ kv hmem hf

/-- The score component of the pattern fold never decreases. -/
theorem foldl_pat_mono {α : Type} (h : α → List (List Char)) :
    ∀ (l : List α) (s : Nat) (ps : List (List Char)),
      s ≤ (l.foldl (fun acc p =>
          if (h p).isEmpty then acc else (Nat.max acc.1 70, acc.2 ++ h p)) (s, ps)).1 := by
  intro l
  induction l with
  | nil => intro s ps; simp
  | cons x xs ih =>
    intro s ps
    cases hemp : h x with
    | nil =>
      simp only [List.foldl_cons, hemp, List.isEmpty_nil, if_true]
      exact ih s ps
    | cons z zs =>
      simp only [List.foldl_cons, hemp, List.isEmpty_cons, Bool.false_eq_true, if_false]
      calc s ≤ Nat.max s 70 := Nat.le_max_left _ _
        _ ≤ _ := ih _ _

/-- The pattern fold either matches nothing (and is the identity) or raises
the score to at least 70. -/
theorem foldl_pat_cases {α : Type} (h : α → List (List Char)) :
    ∀ (l : List α) (s : Nat) (ps : List (List Char)),
      (l.foldl (fun acc p =>
          if (h p).isEmpty then acc else (Nat.max acc.1 70, acc.2 ++ h p)) (s, ps)) = (s, ps)
      ∨ 70 ≤ (l.foldl (fun acc p =>
          if (h p).isEmpty then acc else (Nat.max acc.1 70, acc.2 ++ h p)) (s, ps)).1 := by
  intro l
  induction l with
  | nil => intro s ps; left; simp
  | cons x xs ih =>
    intro s ps
    cases hemp : h x with
    | nil =>
      simp only [List.foldl_cons, hemp, List.isEmpty_nil, if_true]
      exact ih s ps
    | cons z zs =>
      right
      simp only [List.foldl_cons, hemp, List.isEmpty_cons, Bool.false_eq_true, if_false]
      calc (70 : Nat) ≤ Nat.max s 70 := Nat.le_max_right _ _
        _ ≤ _ := foldl_pat_mono h xs _ _

/-- If no pattern matches, the pattern fold is the identity. -/
theorem foldl_pat_nomatch {α : Type} (h : α → List (List Char)) :
    ∀ (l : List α) (s : Nat) (ps : List (List Char)),
      (∀ p ∈ l, h p = []) →
      (l.foldl (fun acc p =>
          if (h p).isEmpty then acc else (Nat.max acc.1 70, acc.2 ++ h p)) (s, ps)) = (s, ps) := by
  intro l
  induction l with
  | nil => intro s ps _; simp
  | cons x xs ih =>
    intro s ps hall
    have hx : h x = [] := hall x (by simp)
    simp only [List.foldl_cons, hx, List.isEmpty_nil, if_true]
    exact ih s ps fun p hp => hall p (by simp [hp])

/-- Lookup after update: the updated key maps to the new value, other keys
are unchanged. -/
theorem lookupPair_setPair (m : Counters) (k k' : Nat × Nat) (v : PairState) :
    lookupPair (setPair m k v) k' = if k = k' then some v else lookupPair m k' := by
  induction m with
  | nil => by_cases h : k = k' <;> simp [setPair, lookupPair, h]
  | cons p rest ih =>
    obtain ⟨kk, vv⟩ := p
    by_cases h1 : kk = k
    · subst h1
      by_cases h2 : kk = k'
      · simp [setPair, lookupPair, h2]
      · simp [setPair, lookupPair, h2]
    · by_cases h2 : kk = k'
      · subst h2
        have h3 : ¬ k = kk := fun h => h1 h.symm
        simp [setPair, lookupPair, h1, h3]
      · simp [setPair, lookupPair, h1, h2, ih]

theorem lookupPair_setPair_self (m : Counters) (k : Nat × Nat) (v : PairState) :
    lookupPair (setPair m k v) k = some v := by
  simp [lookupPair_setPair]

/-! ## Claim theorems -/

/-- C1: for every input text `t`, `analyze_text(t)` returns a score in the
closed interval [0, 10] (here in tenths: [0, 100]), and the returned
`is_abusive` flag is true if and only if the returned score is at least 4.0
(= 40 tenths). -/
theorem analyzeText_score_range_and_threshold (t : List Char) :
    0 ≤ (analyzeText t).abuse_score ∧ (analyzeText t).abuse_score ≤ 100 ∧
    ((analyzeText t).is_abusive = true ↔ 40 ≤ (analyzeText t).abuse_score) := by
  refine ⟨Nat.zero_le _, ?_, ?_⟩ <;> unfold analyzeText <;> split
  · simp
  · simp
  · simp
  · simp

/-- C3, counterexample.  The six category keyword sets are not disjoint
('worthless' is both a CYBERBULLYING and a MENTAL_HARASSMENT word), and the
text "stupid destroy" contains both a CYBERBULLYING term ('stupid') and a
THREAT term ('destroy') yet classifies as CYBERBULLYING, because 'destroy'
is not in the detector's keyword/phrase/pattern vocabulary and the category
check only sees detected keywords. -/
theorem classify_priority_counterexample :
    ("worthless".toList ∈ cyberbullyingWords ∧
     "worthless".toList ∈ mentalHarassmentWords) ∧
    ("stupid".toList ∈ cyberbullyingWords ∧
     "destroy".toList ∈ threatWords ∧
     containsSeq "stupid".toList (normText "stupid destroy".toList) = true ∧
     containsSeq "destroy".toList (normText "stupid destroy".toList) = true ∧
     (analyzeText "stupid destroy".toList).is_abusive = true ∧
     (analyzeText "stupid destroy".toList).classification
       = some Category.CYBERBULLYING) := by
  constructor
  · constructor <;> decide
  · refine ⟨by decide, by decide, by decide, by decide, by decide, by decide⟩

/-- C3, amended: category classification tests the detected
keywords/patterns against the six category word sets in the fixed priority
order THREAT > MENTAL_HARASSMENT > BLACKMAIL > EXPLOITATION >
SEXUAL_HARASSMENT > CYBERBULLYING — the first set with a substring overlap
against the joined detected keywords wins, and CYBERBULLYING is the default;
and every non-empty text containing a detected THREAT keyword such as 'kill'
classifies as THREAT (in particular when CYBERBULLYING terms are also
present). -/
theorem classify_priority_amended :
    (∀ kws pats, classifyAbuseType kws pats =
      (if anyIn threatWords (joinSp kws)
          || pats.any (fun p => containsSeq "kill".toList p || containsSeq "hurt".toList p) then
        Category.THREAT
      else if anyIn mentalHarassmentWords (joinSp kws) then Category.MENTAL_HARASSMENT
      else if anyIn blackmailWords (joinSp kws) then Category.BLACKMAIL
      else if anyIn exploitationWords (joinSp kws) then Category.EXPLOITATION
      else if anyIn sexualHarassmentWords (joinSp kws) then Category.SEXUAL_HARASSMENT
      else if anyIn cyberbullyingWords (joinSp kws) then Category.CYBERBULLYING
      else Category.CYBERBULLYING)) ∧
    (∀ t : List Char, (trimList t).isEmpty = false →
      containsSeq "kill".toList (normText t) = true →
      (analyzeText t).classification = some Category.THREAT) := by
  constructor
  · intro kws pats
    rfl
  · intro t hne hkill
    have h1 : "kill".toList ∈ (kwPhase (normText t)).2 := by
      have h := foldl_detect_mem
        (fun kv : List Char × Nat => containsSeq kv.1 (normText t)) Prod.snd Prod.fst
        abusiveKeywords 0 [] ("kill".toList, 100)
        (by simp [abusiveKeywords]) (by simpa using hkill)
      simpa [kwPhase] using h
    have h2 : "kill".toList ∈ (phrasePhase (normText t) (kwPhase (normText t))).2 := by
      have h := foldl_detect_mem_mono
        (fun p : List Char => containsSeq p (normText t)) (fun _ => 70) (fun p => p)
        phrasesToCheck ((kwPhase (normText t)).1) ((kwPhase (normText t)).2)
        "kill".toList h1
      simpa [phrasePhase] using h
    have hthreat :
        anyIn threatWords (joinSp (phrasePhase (normText t) (kwPhase (normText t))).2) = true := by
      refine List.any_eq_true.mpr ⟨"kill".toList, by simp [threatWords], ?_⟩
      exact containsSeq_joinSp h2
    simp only [analyzeText, hne, Bool.false_eq_true, if_false, classifyAbuseType,
      hthreat, Bool.true_or, if_true, Option.some.injEq]

/-- C6: the keyword/phrase-derived running score of `analyze_text` is the
maximum of the severity weights of all matched keywords and phrases (each
matched phrase weighing 70), not their sum; any structural pattern match
raises the running score to at least 70; and a text matching no keyword,
phrase, or pattern and triggering neither stylistic adjustment scores 0. -/
theorem analyzeText_max_scoring (t : List Char) :
    ((phrasePhase (normText t) (kwPhase (normText t))).1
      = listMax (matchedKwWeights (normText t)
          ++ (matchedPhrases (normText t)).map fun _ => 70)) ∧
    ((analyzeText t).detected_patterns ≠ [] →
      70 ≤ (patternPhase (normText t)
              (phrasePhase (normText t) (kwPhase (normText t))).1).1) ∧
    ((matchedKwWeights (normText t) = [] ∧ matchedPhrases (normText t) = [] ∧
      (∀ p ∈ abusivePatterns, findAll p (normText t) = []) ∧
      capsCond t = false ∧ punctCond t = false) →
      (analyzeText t).abuse_score = 0) := by
  have hkw : (kwPhase (normText t)).1 = listMax (matchedKwWeights (normText t)) := by
    have h := foldl_detect_fst
      (fun kv : List Char × Nat => containsSeq kv.1 (normText t)) Prod.snd Prod.fst
      abusiveKeywords 0 []
    simpa [kwPhase, matchedKwWeights] using h
  have hph : (phrasePhase (normText t) (kwPhase (normText t))).1
      = Nat.max (kwPhase (normText t)).1
          (listMax ((matchedPhrases (normText t)).map fun _ => 70)) := by
    have h := foldl_detect_fst
      (fun p : List Char => containsSeq p (normText t)) (fun _ => 70) (fun p => p)
      phrasesToCheck ((kwPhase (normText t)).1) ((kwPhase (normText t)).2)
    simpa [phrasePhase, matchedPhrases] using h
  refine ⟨?_, ?_, ?_⟩
  · rw [hph, hkw, listMax_append]
  · intro hne
    cases hemp : (trimList t).isEmpty
    · have hdp : (analyzeText t).detected_patterns
          = (patternPhase (normText t)
              (phrasePhase (normText t) (kwPhase (normText t))).1).2 := by
        simp [analyzeText, hemp]
      rw [hdp] at hne
      rcases foldl_pat_cases (fun p => findAll p (normText t)) abusivePatterns
          ((phrasePhase (normText t) (kwPhase (normText t))).1) [] with h | h
      · exact absurd (by simpa [patternPhase] using congrArg Prod.snd h) hne
      · simpa [patternPhase] using h
    · exact absurd (by simp [analyzeText, hemp]) hne
  · rintro ⟨h1, h2, h3, h4, h5⟩
    cases hemp : (trimList t).isEmpty
    · have hpat : patternPhase (normText t)
          (phrasePhase (normText t) (kwPhase (normText t))).1
          = ((phrasePhase (normText t) (kwPhase (normText t))).1, []) := by
        have h := foldl_pat_nomatch (fun p => findAll p (normText t)) abusivePatterns
          ((phrasePhase (normText t) (kwPhase (normText t))).1) [] h3
        simpa [patternPhase] using h
      have hsc : (phrasePhase (normText t) (kwPhase (normText t))).1 = 0 := by
        rw [hph, hkw, h1, h2]
        simp [listMax]
      have hpat0 : (patternPhase (normText t)
          (phrasePhase (normText t) (kwPhase (normText t))).1).1 = 0 := by
        rw [hpat]; exact hsc
      simp [analyzeText, hemp, hpat0, h4, h5]
    · simp [analyzeText, hemp]

/-- Witness for `analyzeText_max_scoring`: on "i hate you" the pattern match
forces a running score of at least 70, and on "good morning" — which matches
nothing — the final score is 0. -/
theorem analyzeText_max_scoring_witness :
    70 ≤ (patternPhase (normText "i hate you".toList)
            (phrasePhase (normText "i hate you".toList)
              (kwPhase (normText "i hate you".toList))).1).1 ∧
    (analyzeText "good morning".toList).abuse_score = 0 :=
  ⟨(analyzeText_max_scoring "i hate you".toList).2.1 (by decide),
   (analyzeText_max_scoring "good morning".toList).2.2 (by decide)⟩

/-- The counters component of `handle_abusive_message`: always the pair's
state with counter incremented and entry appended, additionally reset to
`⟨0, []⟩` on the block branch. -/
theorem handleAbusive_counters_cases (conns : List Nat) (cs : Counters)
    (m : MsgData) (ev : Bool) :
    (handleAbusiveMessage conns cs m ev).1
      = setPair cs (m.sender_id, m.receiver_id)
          ⟨((lookupPair cs (m.sender_id, m.receiver_id)).getD ⟨0, []⟩).count + 1,
           ((lookupPair cs (m.sender_id, m.receiver_id)).getD ⟨0, []⟩).messages
             ++ [⟨m.msg_id, m.content, m.abuse_score⟩]⟩
    ∨ (handleAbusiveMessage conns cs m ev).1
      = setPair (setPair cs (m.sender_id, m.receiver_id)
          ⟨((lookupPair cs (m.sender_id, m.receiver_id)).getD ⟨0, []⟩).count + 1,
           ((lookupPair cs (m.sender_id, m.receiver_id)).getD ⟨0, []⟩).messages
             ++ [⟨m.msg_id, m.content, m.abuse_score⟩]⟩)
          (m.sender_id, m.receiver_id) ⟨0, []⟩ := by
  simp only [handleAbusiveMessage]
  repeat' split
  all_goals first | (left; rfl) | (right; rfl)

/-- `handle_abusive_message` preserves the counter/log-length invariant. -/
theorem handleAbusive_preserves_inv (conns : List Nat) (cs : Counters)
    (m : MsgData) (ev : Bool) (h : CounterInv cs) :
    CounterInv (handleAbusiveMessage conns cs m ev).1 := by
  have hst0 : ((lookupPair cs (m.sender_id, m.receiver_id)).getD ⟨0, []⟩).count
      = ((lookupPair cs (m.sender_id, m.receiver_id)).getD ⟨0, []⟩).messages.length := by
    cases hlk : lookupPair cs (m.sender_id, m.receiver_id) with
    | none => simp
    | some st => simpa using h _ _ hlk
  rcases handleAbusive_counters_cases conns cs m ev with he | he <;> rw [he] <;>
      intro k st hk <;> rw [lookupPair_setPair] at hk
  · by_cases hkey : (m.sender_id, m.receiver_id) = k
    · rw [if_pos hkey] at hk
      cases hk
      simpa using hst0
    · rw [if_neg hkey] at hk
      exact h _ _ hk
  · by_cases hkey : (m.sender_id, m.receiver_id) = k
    · rw [if_pos hkey] at hk
      cases hk
      rfl
    · rw [if_neg hkey, lookupPair_setPair, if_neg hkey] at hk
      exact h _ _ hk

/-- C10: for every reachable per-pair abuse state — every state obtained by
replaying any sequence of abusive incidents through
`handle_abusive_message` starting from the empty counter map — the incident
counter equals the length of the pair's incident log. -/
theorem counter_equals_log_length (trace : List (List Nat × MsgData × Bool)) :
    CounterInv (runHandlers trace []) := by
  suffices h : ∀ cs, CounterInv cs → CounterInv (runHandlers trace cs) by
    refine h [] ?_
    intro k st hk
    simp [lookupPair] at hk
  induction trace with
  | nil => intro cs h; exact h
  | cons x xs ih =>
    intro cs h
    simp only [runHandlers, List.foldl_cons]
    exact ih _ (handleAbusive_preserves_inv x.1 cs x.2.1 x.2.2 h)

/-- Witness for `counter_equals_log_length`: after one abusive message from
user 1 to user 2 the tracked pair state is `⟨1, [entry]⟩`, whose counter 1
equals its log length. -/
theorem counter_equals_log_length_witness :
    (⟨1, [⟨9, ['x'], 50⟩]⟩ : PairState).count
      = (⟨1, [⟨9, ['x'], 50⟩]⟩ : PairState).messages.length :=
  counter_equals_log_length [([2], ⟨1, 2, ['x'], 9, 50⟩, true)] (1, 2)
    ⟨1, [⟨9, ['x'], 50⟩]⟩ (by decide)

/-- C2: three consecutive abusive messages from the same sender `s` to the
same connected receiver `r`, starting from a fresh pair state, produce
exactly one warning alert (after the first), no notification and no block
after the second, and exactly one block write and one block notification
after the third; immediately after the third message the pair's counter is 0
and its incident log is empty. -/
theorem escalation_three_messages (conns : List Nat) (cs0 : Counters)
    (s r i1 i2 i3 a1 a2 a3 : Nat) (c1 c2 c3 : List Char)
    (hfresh : lookupPair cs0 (s, r) = none)
    (hconn : conns.contains r = true) :
    let R1 := handleAbusiveMessage conns cs0 ⟨s, r, c1, i1, a1⟩ true
    let R2 := handleAbusiveMessage conns R1.1 ⟨s, r, c2, i2, a2⟩ true
    let R3 := handleAbusiveMessage conns R2.1 ⟨s, r, c3, i3, a3⟩ true
    (countWarnings R1.2.1 = 1 ∧ countBlockInserts R1.2.1 = 0 ∧
      countBlockAlerts R1.2.1 = 0 ∧ R1.2.2 = false) ∧
    (countWarnings R2.2.1 = 0 ∧ countBlockInserts R2.2.1 = 0 ∧
      countBlockAlerts R2.2.1 = 0 ∧ R2.2.2 = false) ∧
    (countWarnings R3.2.1 = 0 ∧ countBlockInserts R3.2.1 = 1 ∧
      countBlockAlerts R3.2.1 = 1 ∧ R3.2.2 = false) ∧
    lookupPair R3.1 (s, r) = some ⟨0, []⟩ := by
  have hconn' : r ∈ conns := by simpa using hconn
  simp [handleAbusiveMessage, hfresh, hconn', lookupPair_setPair_self,
    countWarnings, countBlockInserts, countBlockAlerts,
    Event.isWarningAlert, Event.isBlockInsert, Event.isBlockAlert]

/-- Witness for `escalation_three_messages` at a concrete instance: sender 1,
receiver 2 connected, fresh map. -/
theorem escalation_three_messages_witness :
    let R1 := handleAbusiveMessage [2] [] ⟨1, 2, ['a'], 11, 90⟩ true
    let R2 := handleAbusiveMessage [2] R1.1 ⟨1, 2, ['b'], 12, 90⟩ true
    let R3 := handleAbusiveMessage [2] R2.1 ⟨1, 2, ['c'], 13, 90⟩ true
    (countWarnings R1.2.1 = 1 ∧ countBlockInserts R1.2.1 = 0 ∧
      countBlockAlerts R1.2.1 = 0 ∧ R1.2.2 = false) ∧
    (countWarnings R2.2.1 = 0 ∧ countBlockInserts R2.2.1 = 0 ∧
      countBlockAlerts R2.2.1 = 0 ∧ R2.2.2 = false) ∧
    (countWarnings R3.2.1 = 0 ∧ countBlockInserts R3.2.1 = 1 ∧
      countBlockAlerts R3.2.1 = 1 ∧ R3.2.2 = false) ∧
    lookupPair R3.1 (1, 2) = some ⟨0, []⟩ :=
  escalation_three_messages [2] [] 1 2 11 12 13 90 90 90 ['a'] ['b'] ['c']
    (by decide) (by decide)

/-- C4, counterexample.  A first abusive message from user 1 to connected
user 2 with a failing evidence-report generation: the counter increment
completes (the pair reaches count 1, the warning threshold), but no warning
alert — indeed no action at all — is performed, and the exception escapes
the handler; the escalation decision is blocked by the evidence failure. -/
theorem evidence_failure_blocks_escalation_counterexample :
    (handleAbusiveMessage [2] [] ⟨1, 2, ['h', 'i'], 5, 90⟩ false).2.2 = true ∧
    (handleAbusiveMessage [2] [] ⟨1, 2, ['h', 'i'], 5, 90⟩ false).2.1 = [] ∧
    countWarnings (handleAbusiveMessage [2] [] ⟨1, 2, ['h', 'i'], 5, 90⟩ false).2.1 = 0 ∧
    lookupPair (handleAbusiveMessage [2] [] ⟨1, 2, ['h', 'i'], 5, 90⟩ false).1 (1, 2)
      = some ⟨1, [⟨5, ['h', 'i'], 90⟩]⟩ := by
  refine ⟨by decide, by decide, by decide, by decide⟩

/-- C4, amended: if evidence packaging fails while recording an abusive
incident, the pair's counter increment and log append still complete — they
precede the packaging call — but the warning notification and block action
for that incident do NOT execute: the handler performs no action and the
exception propagates. -/
theorem evidence_failure_semantics (conns : List Nat) (cs : Counters) (m : MsgData) :
    (handleAbusiveMessage conns cs m false).2.2 = true ∧
    (handleAbusiveMessage conns cs m false).2.1 = [] ∧
    lookupPair (handleAbusiveMessage conns cs m false).1 (m.sender_id, m.receiver_id)
      = some ⟨((lookupPair cs (m.sender_id, m.receiver_id)).getD ⟨0, []⟩).count + 1,
              ((lookupPair cs (m.sender_id, m.receiver_id)).getD ⟨0, []⟩).messages
                ++ [⟨m.msg_id, m.content, m.abuse_score⟩]⟩ := by
  refine ⟨?_, ?_, ?_⟩ <;>
    simp [handleAbusiveMessage, lookupPair_setPair_self]

/-- C5, counterexample.  The second abusive message of a pair triggers no
escalation action (no warning, no block), yet an evidence archive is still
created for it: archives are produced once per abusive message, not once per
escalation trigger. -/
theorem evidence_archive_per_message_counterexample :
    countWarnings (handleAbusiveMessage [2]
        (handleAbusiveMessage [2] [] ⟨1, 2, ['a'], 5, 90⟩ true).1
        ⟨1, 2, ['b'], 6, 90⟩ true).2.1 = 0 ∧
    countBlockInserts (handleAbusiveMessage [2]
        (handleAbusiveMessage [2] [] ⟨1, 2, ['a'], 5, 90⟩ true).1
        ⟨1, 2, ['b'], 6, 90⟩ true).2.1 = 0 ∧
    countBlockAlerts (handleAbusiveMessage [2]
        (handleAbusiveMessage [2] [] ⟨1, 2, ['a'], 5, 90⟩ true).1
        ⟨1, 2, ['b'], 6, 90⟩ true).2.1 = 0 ∧
    countEvidence (handleAbusiveMessage [2]
        (handleAbusiveMessage [2] [] ⟨1, 2, ['a'], 5, 90⟩ true).1
        ⟨1, 2, ['b'], 6, 90⟩ true).2.1 = 1 := by
  refine ⟨by decide, by decide, by decide, by decide⟩

/-- C5, amended: whenever evidence generation succeeds,
`handle_abusive_message` creates exactly one evidence archive per abusive
message — including messages that trigger neither a warning nor a block. -/
theorem evidence_archive_per_message (conns : List Nat) (cs : Counters) (m : MsgData) :
    countEvidence (handleAbusiveMessage conns cs m true).2.1 = 1 := by
  simp only [handleAbusiveMessage, countEvidence]
  repeat' split
  all_goals simp_all [Event.isEvidenceArchive]

/-- The events of a successful `handle_abusive_message` run contain no
message delivery, and no exception escapes. -/
theorem handleAbusive_events_no_deliver (conns : List Nat) (cs : Counters) (m : MsgData) :
    (handleAbusiveMessage conns cs m true).2.1.filter Event.isDeliver = [] ∧
    (handleAbusiveMessage conns cs m true).2.2 = false := by
  simp only [handleAbusiveMessage]
  repeat' split
  all_goals simp_all [Event.isDeliver]

/-- C8, counterexample.  A benign message from user 1 to connected user 2
whose persistence write fails: the exception propagates out of the dispatch
iteration and the message is never forwarded to the receiver's live
connection — a storage failure does prevent delivery. -/
theorem store_failure_blocks_delivery_counterexample :
    [2].contains 2 = true ∧
    (processInbound [2] [] ⟨1, 2, "ok".toList⟩ 5 false true).2.2 = true ∧
    countDeliver (processInbound [2] [] ⟨1, 2, "ok".toList⟩ 5 false true).2.1 = 0 := by
  refine ⟨by decide, by decide, by decide⟩

/-- C8, amended: if the persistence write for an inbound message fails, the
dispatch iteration performs no effect at all — in particular the forward to
the receiver's live connection does not proceed — and the exception
propagates out of the websocket loop. -/
theorem store_failure_semantics (conns : List Nat) (cs : Counters)
    (m : InboundMsg) (mid : Nat) (evOk : Bool) :
    processInbound conns cs m mid false evOk = (cs, [], true) := by
  simp [processInbound]

/-- C9: for every inbound message processed without store or evidence
failure, no exception escapes the dispatch iteration, and the delivery
events are exactly: one delivery to the receiver carrying the
classification fields (whether or not the message is abusive) when the
receiver has a live connection, and none — with no error — when the
receiver has no live connection. -/
theorem delivery_independent_of_abuse (conns : List Nat) (cs : Counters)
    (m : InboundMsg) (mid : Nat) :
    (processInbound conns cs m mid true true).2.2 = false ∧
    (processInbound conns cs m mid true true).2.1.filter Event.isDeliver
      = (if conns.contains m.receiver_id then
          [Event.deliver m.receiver_id m.sender_id m.content
            (analyzeText m.content).is_abusive (analyzeText m.content).abuse_score
            (if (analyzeText m.content).is_abusive
             then (analyzeText m.content).classification else none)]
         else []) := by
  have hnd := handleAbusive_events_no_deliver conns cs
    ⟨m.sender_id, m.receiver_id, m.content, mid, (analyzeText m.content).abuse_score⟩
  cases hab : (analyzeText m.content).is_abusive
  · constructor
    · simp [processInbound, hab]
    · simp only [processInbound, hab, Bool.not_true, Bool.false_eq_true, if_false,
        List.filter_append, hab]
      split <;> simp [Event.isDeliver, hab]
  · constructor
    · simp [processInbound, hab, hnd.2]
    · simp only [processInbound, hab, Bool.not_true, Bool.false_eq_true, if_false,
        hnd.2, List.filter_append, hnd.1]
      split <;> simp [Event.isDeliver, hab, hnd.1]

/-- C7: `generate_evidence_report` with a failing transcript renderer.  When
the renderer raises, the exception propagates and no archive is produced;
when the renderer returns no image (or a path that does not exist on disk),
the zip step reads the never-assigned local `temp_screenshot_path` and the
packaging operation dies with a `NameError` instead of returning an archive
path without the image. -/
theorem packaging_fails_without_image :
    generateEvidenceReport RendererResult.noImage (fun _ => false)
      = PackagingOutcome.nameError ∧
    generateEvidenceReport RendererResult.raisesError (fun _ => false)
      = PackagingOutcome.rendererError ∧
    generateEvidenceReport (RendererResult.image "shot.png".toList) (fun _ => false)
      = PackagingOutcome.nameError :=
  ⟨rfl, rfl, rfl⟩

/-- Witness for `classify_priority_amended`: a text containing both the
CYBERBULLYING term 'stupid' and the THREAT keyword 'kill' classifies as
THREAT. -/
theorem classify_priority_amended_witness :
    (analyzeText "you stupid and i will kill you".toList).classification
      = some Category.THREAT :=
  classify_priority_amended.2 "you stupid and i will kill you".toList
    (by decide) (by decide)
